import Mathlib

/-!
# Verification of the RTSI calculator (src/algorithms/rtsi_calculator-20250608.py)

A shallow embedding of the Rating Trend Strength Index module.  Numeric
values are modelled as rationals (`ℚ`); Python dictionaries holding
results are modelled as structures (a `none` field models both a Python
`None` value and an absent key, since no claim distinguishes the two);
the batch result dictionary is modelled as an association list with
insert-or-replace semantics, matching Python `dict` assignment.

`scipy.stats.linregress` is an external library routine (its `x`
argument is always `arange(len(scores))`, so it is determined by the
score list); it is modelled as a parameter of type
`List ℚ → Except String LinregressResult`, a fallible operation whose
failure models a raised exception caught by the `try/except` block.

The wall-clock `calculation_time` field of the result dictionaries is
informational timing output and is not representable in a pure
embedding; it is omitted from `RTSIResult`.
-/

namespace RTSI

/-- Python `round` on a rational: round-half-to-even (banker's rounding)
to an integer, as Python's `round(x)` behaves on exactly representable
values. -/
def pyRound (q : ℚ) : ℤ :=
  if q - ⌊q⌋ < 1/2 then ⌊q⌋
  else if 1/2 < q - ⌊q⌋ then ⌊q⌋ + 1
  else if ⌊q⌋ % 2 = 0 then ⌊q⌋ else ⌊q⌋ + 1

/-- Python `round(x, ndigits)`: scale, round half to even, unscale. -/
def roundTo (ndigits : ℕ) (q : ℚ) : ℚ :=
  (pyRound (q * (10 : ℚ) ^ ndigits) : ℚ) / (10 : ℚ) ^ ndigits

/-- Python `int()` conversion: truncation toward zero. -/
def pyInt (q : ℚ) : ℤ :=
  if q < 0 then -⌊-q⌋ else ⌊q⌋

/-- A rating map sends a rating symbol to a score, or to `none` when the
symbol carries no score (the placeholder entry mapping to Python `None`,
and unknown symbols which `pandas.Series.map` sends to `NaN`, are both
dropped by the subsequent `dropna`). -/
def RatingMap : Type := String → Option ℚ

/-- The built-in default `RATING_SCORE_MAP` of the module: the 8 rating
tiers score 7 down to 0 and the placeholder `-` maps to `None`. -/
def RATING_SCORE_MAP : RatingMap := fun s =>
  if s = "大多" then some 7
  else if s = "中多" then some 6
  else if s = "小多" then some 5
  else if s = "微多" then some 4
  else if s = "微空" then some 3
  else if s = "小空" then some 2
  else if s = "中空" then some 1
  else if s = "大空" then some 0
  else none

/-- Output of `scipy.stats.linregress`. -/
structure LinregressResult where
  slope : ℚ
  intercept : ℚ
  r_value : ℚ
  p_value : ℚ
  std_err : ℚ
deriving DecidableEq

/-- The regression routine, abstracted: it receives the score list
(`x = arange(len(scores))` is determined by it) and either returns a
result or raises (models the exception caught by the `except` clause). -/
def Linregress : Type := List ℚ → Except String LinregressResult

/-- The result record of a single scoring call (`calculation_time`
omitted, see module docstring).  `none` models Python `None` or an
absent key. -/
structure RTSIResult where
  rtsi : ℚ
  trend : String
  confidence : ℚ
  slope : Option ℚ
  r_squared : Option ℚ
  recent_score : Option ℤ
  score_change_5d : Option ℚ
  data_points : ℕ
  error : Option String
deriving DecidableEq

/-- `_get_insufficient_data_result(data_points=0)`. -/
def get_insufficient_data_result (data_points : ℕ := 0) : RTSIResult :=
  { rtsi := 0
    trend := "insufficient_data"
    confidence := 0
    slope := some 0
    r_squared := some 0
    recent_score := none
    score_change_5d := none
    data_points := data_points
    error := none }

/-- `_determine_trend_direction(slope, significance)`. -/
def determine_trend_direction (slope significance : ℚ) : String :=
  if significance < 0.3 then "neutral"
  else if slope > 0.15 ∧ significance > 0.7 then "strong_bull"
  else if slope > 0.08 ∧ significance > 0.5 then "moderate_bull"
  else if slope > 0.03 then "weak_bull"
  else if slope < -0.15 ∧ significance > 0.7 then "strong_bear"
  else if slope < -0.08 ∧ significance > 0.5 then "moderate_bear"
  else if slope < -0.03 then "weak_bear"
  else "neutral"

/-- `_calculate_score_change(scores, days)`. -/
def calculate_score_change (scores : List ℚ) (days : ℕ) : Option ℚ :=
  if scores.length < days + 1 then none
  else some (scores.getD (scores.length - 1) 0 - scores.getD (scores.length - (days + 1)) 0)

/-- `classify_rtsi_by_value(rtsi_value)`. -/
def classify_rtsi_by_value (rtsi_value : ℚ) : String :=
  if rtsi_value ≥ 75 then "strong_bull"
  else if rtsi_value ≥ 60 then "moderate_bull"
  else if rtsi_value ≥ 50 then "weak_bull"
  else if rtsi_value ≥ 40 then "neutral"
  else if rtsi_value ≥ 30 then "weak_bear"
  else if rtsi_value ≥ 20 then "moderate_bear"
  else "strong_bear"

/-- The rating-encoding step: `stock_ratings.map(RATING_SCORE_MAP).dropna()`. -/
def encodeScores (m : RatingMap) (ratings : List String) : List ℚ :=
  ratings.filterMap m

/-- `calculate_rating_trend_strength_index(stock_ratings)`.  The input is
`Option (List String)`: `none` models a Python `None` argument.  The
regression routine is the explicit `linregress` parameter. -/
def calculate_rating_trend_strength_index (linregress : Linregress)
    (stock_ratings : Option (List String)) : RTSIResult :=
  match stock_ratings with
  | none => get_insufficient_data_result
  | some ratings =>
    if ratings.length = 0 then get_insufficient_data_result
    else
      let scores := encodeScores RATING_SCORE_MAP ratings
      if scores.length < 5 then get_insufficient_data_result scores.length
      else
        match linregress scores with
        | .error e =>
          { rtsi := 0
            trend := "calculation_error"
            confidence := 0
            slope := none
            r_squared := none
            recent_score := none
            score_change_5d := none
            data_points := scores.length
            error := some e }
        | .ok res =>
          let consistency := res.r_value ^ 2
          let significance := if res.p_value < 0.05 then max 0 (1 - res.p_value) else 0
          let amplitude := min (|res.slope| * scores.length / 7) 1
          let rtsi := (consistency * 0.4 + significance * 0.3 + amplitude * 0.3) * 100
          let trend_direction := determine_trend_direction res.slope significance
          let recent_score := if scores.length > 0 then scores.getLast?.map pyInt else none
          { rtsi := roundTo 2 rtsi
            trend := trend_direction
            confidence := roundTo 3 significance
            slope := some (roundTo 4 res.slope)
            r_squared := some (roundTo 3 consistency)
            recent_score := recent_score
            score_change_5d := calculate_score_change scores 5
            data_points := scores.length
            error := none }

/-- The number of valid (mappable) points of an input sequence: 0 for a
`None` input, otherwise the length of the encoded score list. -/
def validCount (stock_ratings : Option (List String)) : ℕ :=
  match stock_ratings with
  | none => 0
  | some ratings => (encodeScores RATING_SCORE_MAP ratings).length

/-! ## Batch engine -/

/-- The input `DataFrame` of `batch_calculate_rtsi`: a list of column
names and one cell list per row (cells are strings; positions line up
with `columns`). -/
structure StockTable where
  columns : List String
  rows : List (List String)

/-- Label-based cell access on one row (`row.get(col)` /`row[col]` on a
`pandas` row: first matching column label). -/
def lookupCol : List String → List String → String → Option String
  | c :: cs, v :: vs, k => if c = k then some v else lookupCol cs vs k
  | _, _, _ => none

/-- A batch result record: the scoring result updated with the entity
metadata keys added by `rtsi_result.update({...})`. -/
structure RTSIRecord where
  result : RTSIResult
  stock_code : String
  stock_name : String
  industry : String
deriving DecidableEq

/-- Python `dict` assignment `d[k] = v` on an association list: replace
in place when the key exists, else append. -/
def dictInsert (d : List (String × RTSIRecord)) (k : String) (v : RTSIRecord) :
    List (String × RTSIRecord) :=
  if k ∈ d.map Prod.fst then
    d.map (fun p => if p.1 = k then (k, v) else p)
  else d ++ [(k, v)]

/-- Python `s.startswith(pre)`: the character list of `pre` is an
initial segment of the character list of `s`. -/
def strStartsWith (s pre : String) : Bool :=
  List.isPrefixOf pre.toList s.toList

/-- The date-column selection of `batch_calculate_rtsi`: the columns
whose name starts with the literal string `"202"`, sorted ascending
(Python `list.sort()` on strings, lexicographic). -/
def dateColumnsOf (t : StockTable) : List String :=
  List.insertionSort (· ≤ ·) (t.columns.filter (fun c => strStartsWith c "202"))

/-- The dictionary key of one row:
`str(row.get('股票代码', f'STOCK_{idx}'))`. -/
def rowKey (t : StockTable) (idxRow : ℕ × List String) : String :=
  (lookupCol t.columns idxRow.2 "股票代码").getD ("STOCK_" ++ toString idxRow.1)

/-- The record stored for one row: the scoring result of the row's
rating sequence across the sorted date columns, with entity metadata. -/
def rowRecord (linregress : Linregress) (t : StockTable)
    (idxRow : ℕ × List String) : RTSIRecord :=
  let row := idxRow.2
  let stock_ratings := (dateColumnsOf t).filterMap (lookupCol t.columns row)
  { result := calculate_rating_trend_strength_index linregress (some stock_ratings)
    stock_code := rowKey t idxRow
    stock_name := (lookupCol t.columns row "股票名称").getD "未知股票"
    industry := (lookupCol t.columns row "行业").getD "未分类" }

/-- One iteration of the `for idx, row in stock_data.iterrows()` loop. -/
def batchStep (linregress : Linregress) (t : StockTable)
    (results : List (String × RTSIRecord)) (idxRow : ℕ × List String) :
    List (String × RTSIRecord) :=
  dictInsert results (rowKey t idxRow) (rowRecord linregress t idxRow)

/-- `batch_calculate_rtsi(stock_data)`. -/
def batch_calculate_rtsi (linregress : Linregress) (t : StockTable) :
    List (String × RTSIRecord) :=
  if t.rows.length = 0 then []
  else if (dateColumnsOf t).length = 0 then []
  else t.rows.enum.foldl (batchStep linregress t) []

/-! ## Ranking -/

/-- Python substring test `needle in hay` (for the nonempty needles
`"up"` and `"down"` used by the trend filter). -/
def substrOccurs (needle hay : String) : Bool :=
  (hay.splitOn needle).length > 1

/-- Whether an entry survives the trend filter of `get_rtsi_ranking`
(`true` = not skipped by a `continue`).  A falsy (`none`) filter and any
unrecognized filter string keep everything. -/
def matchesTrendFilter (tf : Option String) (trend : String) : Bool :=
  match tf with
  | none => true
  | some f =>
    if f = "up" then substrOccurs "up" trend
    else if f = "down" then substrOccurs "down" trend
    else if f = "strong_up" then trend = "strong_up"
    else if f = "strong_down" then trend = "strong_down"
    else true

/-- The 6-tuple appended to `valid_results` for each surviving entry. -/
structure RankEntry where
  code : String
  name : String
  rtsi : ℚ
  trend : String
  confidence : ℚ
  recent : ℤ
deriving DecidableEq

/-- The filtering pass of `get_rtsi_ranking`: keep entries with
`rtsi > 0` that pass the trend filter, in iteration (insertion) order. -/
def filterValid (rtsi_results : List (String × RTSIRecord)) (tf : Option String) :
    List RankEntry :=
  rtsi_results.filterMap fun p =>
    if 0 < p.2.result.rtsi then
      if matchesTrendFilter tf p.2.result.trend then
        some
          { code := p.1
            name := p.2.stock_name
            rtsi := p.2.result.rtsi
            trend := p.2.result.trend
            confidence := p.2.result.confidence
            recent := p.2.result.recent_score.getD 0 }
      else none
    else none

/-- The comparator of `valid_results.sort(key=lambda x: x[2], reverse=True)`:
`a` may come before `b` iff `a.rtsi ≥ b.rtsi`.  A stable sort under this
relation is exactly Python's stable descending sort by `rtsi`. -/
def rankGE (a b : RankEntry) : Prop := b.rtsi ≤ a.rtsi

instance (a b : RankEntry) : Decidable (rankGE a b) := by
  unfold rankGE; infer_instance

/-- `get_rtsi_ranking(rtsi_results, top_n, trend_filter)`.  Python's
`list.sort` is a stable sort; `List.insertionSort` under `rankGE` is
extensionally the same list. -/
def get_rtsi_ranking (rtsi_results : List (String × RTSIRecord)) (top_n : ℕ := 50)
    (trend_filter : Option String := none) : List (String × String × ℚ × String) :=
  if rtsi_results.length = 0 then []
  else
    let valid_results := List.insertionSort rankGE (filterValid rtsi_results trend_filter)
    (valid_results.take top_n).map fun e => (e.code, e.name, e.rtsi, e.trend)

/-! ## The `RTSICalculator` wrapper class -/

/-- The state of an `RTSICalculator` instance. -/
structure RTSICalculator where
  rating_map : RatingMap
  min_data_points : ℕ
  calculation_count : ℕ

/-- `RTSICalculator.__init__(rating_map=None, min_data_points=5)`:
`self.rating_map = rating_map or RATING_SCORE_MAP`. -/
def RTSICalculator.make (rating_map : Option RatingMap := none)
    (min_data_points : ℕ := 5) : RTSICalculator :=
  { rating_map := rating_map.getD RATING_SCORE_MAP
    min_data_points := min_data_points
    calculation_count := 0 }

/-- `RTSICalculator.calculate(stock_ratings)`: bumps the invocation
counter and delegates to the module-level function (which reads the
global `RATING_SCORE_MAP` and the literal threshold `5`, not the
instance configuration). -/
def RTSICalculator.calculate (c : RTSICalculator) (linregress : Linregress)
    (stock_ratings : Option (List String)) : RTSICalculator × RTSIResult :=
  ({ c with calculation_count := c.calculation_count + 1 },
   calculate_rating_trend_strength_index linregress stock_ratings)

/-! ## Spec-side definitions (for refinement comparison only) -/

/-- Modelled from the spec: a time-key column name "beginning with a
4-digit year" (spec section 6, example `"20250601"`): the first four
characters exist and are ASCII digits. -/
def beginsWithFourDigitYear (s : String) : Bool :=
  s.length ≥ 4 ∧ (s.toList.take 4).all (fun c => c.isDigit)

/-! ## Concrete data used by witnesses and counterexamples -/

/-- The regression output of a perfect ascending linear fit (the spec's
worked example: scores `[1,…,7]` give `slope=1, r_value=1, p_value≈0`). -/
def lrDemoRes : LinregressResult :=
  { slope := 1, intercept := 0, r_value := 1, p_value := 0, std_err := 0 }

/-- A regression routine that always succeeds with `lrDemoRes`. -/
def lrDemo : Linregress := fun _ => Except.ok lrDemoRes

/-- A regression routine that always raises. -/
def lrFail : Linregress := fun _ => Except.error "LinAlgError"

/-- The spec's worked-example rating sequence (7 valid points). -/
def demoRatings : List String :=
  ["中空", "小空", "微空", "微多", "小多", "中多", "大多"]

/-- A concrete batch result record with a positive `rtsi`. -/
def demoRecord : RTSIRecord :=
  { result :=
      { rtsi := 50
        trend := "weak_bull"
        confidence := 0.5
        slope := some 0.1
        r_squared := some 0.5
        recent_score := some 5
        score_change_5d := some 1
        data_points := 7
        error := none }
    stock_code := "000001"
    stock_name := "DemoA"
    industry := "Demo" }

/-- A table with two rows sharing the same stock code (and one time-key
column). -/
def dupCodeTable : StockTable :=
  { columns := ["股票代码", "股票名称", "行业", "20250601"]
    rows := [["AAA", "NameOne", "IndOne", "大多"], ["AAA", "NameTwo", "IndTwo", "大空"]] }

/-- A table with two rows carrying distinct stock codes. -/
def distinctCodeTable : StockTable :=
  { columns := ["股票代码", "股票名称", "行业", "20250601"]
    rows := [["AAA", "NameOne", "IndOne", "大多"], ["BBB", "NameTwo", "IndTwo", "大空"]] }

/-- A table whose only data column is dated in the year 2030 (it begins
with a 4-digit year, but not with the string `"202"`). -/
def year2030Table : StockTable :=
  { columns := ["股票代码", "20300101"]
    rows := [["AAA", "大多"]] }

/-- A table with no time-key column at all. -/
def noDateTable : StockTable :=
  { columns := ["股票代码"]
    rows := [["AAA"]] }

/-- An instance-level rating map recognizing only the symbol `"X"`. -/
def customMap : RatingMap := fun s => if s = "X" then some 7 else none

/-- Five ratings that are all valid under `customMap` and all invalid
under the built-in `RATING_SCORE_MAP`. -/
def customRatings : List String := ["X", "X", "X", "X", "X"]

end RTSI

namespace RTSI

/-! ## Helper lemmas about Python rounding -/

theorem pyRound_le {q : ℚ} {z : ℤ} (h : q ≤ z) : pyRound q ≤ z := by
  have hfz : ⌊q⌋ ≤ z := by
    have h1 := Int.floor_le_floor h
    rwa [Int.floor_intCast] at h1
  unfold pyRound
  split_ifs with h1 h2 h3
  · exact hfz
  · have : ⌊q⌋ < z := by
      rcases lt_or_eq_of_le hfz with h' | h'
      · exact h'
      · exfalso; rw [h'] at h2; linarith
    omega
  · exact hfz
  · push_neg at h1
    have : ⌊q⌋ < z := by
      rcases lt_or_eq_of_le hfz with h' | h'
      · exact h'
      · exfalso; rw [h'] at h1; linarith
    omega

theorem le_pyRound {q : ℚ} {z : ℤ} (h : (z : ℚ) ≤ q) : z ≤ pyRound q := by
  have hzf : z ≤ ⌊q⌋ := Int.le_floor.mpr h
  unfold pyRound
  split_ifs <;> omega

theorem roundTo_le {q : ℚ} {z : ℤ} (n : ℕ) (h : q ≤ z) : roundTo n q ≤ z := by
  unfold roundTo
  rw [div_le_iff₀ (by positivity)]
  have hmul : q * (10 : ℚ) ^ n ≤ ((z * 10 ^ n : ℤ) : ℚ) := by
    push_cast
    have := mul_le_mul_of_nonneg_right h (by positivity : (0:ℚ) ≤ (10:ℚ)^n)
    linarith
  have := pyRound_le hmul
  calc (pyRound (q * (10:ℚ)^n) : ℚ) ≤ ((z * 10 ^ n : ℤ) : ℚ) := by exact_mod_cast this
  _ = (z : ℚ) * (10:ℚ)^n := by push_cast; ring

theorem le_roundTo {q : ℚ} {z : ℤ} (n : ℕ) (h : (z : ℚ) ≤ q) : (z : ℚ) ≤ roundTo n q := by
  unfold roundTo
  rw [le_div_iff₀ (by positivity)]
  have hmul : ((z * 10 ^ n : ℤ) : ℚ) ≤ q * (10 : ℚ) ^ n := by
    push_cast
    have := mul_le_mul_of_nonneg_right h (by positivity : (0:ℚ) ≤ (10:ℚ)^n)
    linarith
  have := le_pyRound hmul
  calc (z : ℚ) * (10:ℚ)^n = ((z * 10 ^ n : ℤ) : ℚ) := by push_cast; ring
  _ ≤ (pyRound (q * (10:ℚ)^n) : ℚ) := by exact_mod_cast this

end RTSI

namespace RTSI

/-! ## Characterization of the scoring paths -/

/-- On a `None` or short input the scorer returns the insufficient-data
record with the valid-point count. -/
theorem calculate_insufficient (lr : Linregress) (input : Option (List String))
    (h : validCount input < 5) :
    calculate_rating_trend_strength_index lr input =
      get_insufficient_data_result (validCount input) := by
  match input with
  | none => rfl
  | some rs =>
    simp only [calculate_rating_trend_strength_index, validCount] at h ⊢
    by_cases h0 : rs.length = 0
    · have : encodeScores RATING_SCORE_MAP rs = [] := by
        rw [List.length_eq_zero] at h0
        simp [encodeScores, h0]
      simp [h0, this]
    · rw [if_neg h0, if_pos h]

/-- When the regression routine raises, the scorer returns the
calculation-error record. -/
theorem calculate_error (lr : Linregress) (rs : List String) (e : String)
    (h5 : 5 ≤ (encodeScores RATING_SCORE_MAP rs).length)
    (herr : lr (encodeScores RATING_SCORE_MAP rs) = .error e) :
    calculate_rating_trend_strength_index lr (some rs) =
      { rtsi := 0
        trend := "calculation_error"
        confidence := 0
        slope := none
        r_squared := none
        recent_score := none
        score_change_5d := none
        data_points := (encodeScores RATING_SCORE_MAP rs).length
        error := some e } := by
  have h0 : rs.length ≠ 0 := by
    have hle := List.length_filterMap_le RATING_SCORE_MAP rs
    simp only [encodeScores] at h5
    omega
  simp only [calculate_rating_trend_strength_index]
  rw [if_neg h0, if_neg (by omega), herr]

/-- When the regression routine succeeds, the scorer returns the record
built from the regression outputs as written in the source. -/
theorem calculate_ok (lr : Linregress) (rs : List String) (res : LinregressResult)
    (h5 : 5 ≤ (encodeScores RATING_SCORE_MAP rs).length)
    (hok : lr (encodeScores RATING_SCORE_MAP rs) = .ok res) :
    calculate_rating_trend_strength_index lr (some rs) =
      { rtsi := roundTo 2 ((res.r_value ^ 2 * 0.4 +
          (if res.p_value < 0.05 then max 0 (1 - res.p_value) else 0) * 0.3 +
          min (|res.slope| * (encodeScores RATING_SCORE_MAP rs).length / 7) 1 * 0.3) * 100)
        trend := determine_trend_direction res.slope
          (if res.p_value < 0.05 then max 0 (1 - res.p_value) else 0)
        confidence := roundTo 3 (if res.p_value < 0.05 then max 0 (1 - res.p_value) else 0)
        slope := some (roundTo 4 res.slope)
        r_squared := some (roundTo 3 (res.r_value ^ 2))
        recent_score := (encodeScores RATING_SCORE_MAP rs).getLast?.map pyInt
        score_change_5d := calculate_score_change (encodeScores RATING_SCORE_MAP rs) 5
        data_points := (encodeScores RATING_SCORE_MAP rs).length
        error := none } := by
  have h0 : rs.length ≠ 0 := by
    have hle := List.length_filterMap_le RATING_SCORE_MAP rs
    simp only [encodeScores] at h5
    omega
  simp only [calculate_rating_trend_strength_index]
  rw [if_neg h0, if_neg (by omega), hok]
  simp only [if_pos (by omega : 0 < (encodeScores RATING_SCORE_MAP rs).length)]

end RTSI

namespace RTSI

/-- The worked example encodes to the score list `[1,…,7]`. -/
theorem demo_scores : encodeScores RATING_SCORE_MAP demoRatings = [1, 2, 3, 4, 5, 6, 7] := by
  simp [encodeScores, RATING_SCORE_MAP, demoRatings, List.filterMap_cons]

/-- C1: for every rating sequence with at least 5 valid points on which
the regression step succeeds, the returned `rtsi` equals
`round(100 * (0.4*consistency + 0.3*significance + 0.3*amplitude), 2)`
with `consistency = r_value²`, `significance = max(0, 1 - p_value)` when
`p_value < 0.05` and exactly `0` for `p_value ≥ 0.05`, and
`amplitude = min(1.0, |slope|*n/7)` for `n` the number of valid points. -/
theorem C1_rtsi_formula (lr : Linregress) (rs : List String) (res : LinregressResult)
    (h5 : 5 ≤ (encodeScores RATING_SCORE_MAP rs).length)
    (hok : lr (encodeScores RATING_SCORE_MAP rs) = .ok res) :
    (calculate_rating_trend_strength_index lr (some rs)).rtsi =
      roundTo 2 (100 * (0.4 * res.r_value ^ 2 +
        0.3 * (if res.p_value < 0.05 then max 0 (1 - res.p_value) else 0) +
        0.3 * min 1
          (|res.slope| * (encodeScores RATING_SCORE_MAP rs).length / 7))) := by
  rw [calculate_ok lr rs res h5 hok]
  show roundTo 2 _ = roundTo 2 _
  rw [min_comm]
  congr 1
  ring

/-- Witness for C1: the worked example, scores `[1,…,7]`, perfect fit. -/
theorem C1_witness :
    (calculate_rating_trend_strength_index lrDemo (some demoRatings)).rtsi =
      roundTo 2 (100 * (0.4 * lrDemoRes.r_value ^ 2 +
        0.3 * (if lrDemoRes.p_value < 0.05 then max 0 (1 - lrDemoRes.p_value) else 0) +
        0.3 * min 1
          (|lrDemoRes.slope| * (encodeScores RATING_SCORE_MAP demoRatings).length / 7))) :=
  C1_rtsi_formula lrDemo demoRatings lrDemoRes (by rw [demo_scores]; norm_num) rfl

/-- C2: a null, empty, or fewer-than-5-valid-points input yields exactly
the insufficient-data record, with `data_points` the valid-point count. -/
theorem C2_insufficient_record (lr : Linregress) (input : Option (List String))
    (h : validCount input < 5) :
    calculate_rating_trend_strength_index lr input =
      get_insufficient_data_result (validCount input) ∧
    get_insufficient_data_result (validCount input) =
      { rtsi := 0
        trend := "insufficient_data"
        confidence := 0
        slope := some 0
        r_squared := some 0
        recent_score := none
        score_change_5d := none
        data_points := validCount input
        error := none } :=
  ⟨calculate_insufficient lr input h, rfl⟩

/-- Witness for C2: a 4-point input (4 valid points `< 5`). -/
theorem C2_witness :
    calculate_rating_trend_strength_index lrDemo (some ["大多", "大多", "大多", "大多"]) =
      get_insufficient_data_result (validCount (some ["大多", "大多", "大多", "大多"])) :=
  (C2_insufficient_record lrDemo (some ["大多", "大多", "大多", "大多"])
    (by simp [validCount, encodeScores, RATING_SCORE_MAP, List.filterMap_cons])).1

/-- C4: with at least 5 valid points, a regression exception is not
propagated: the scorer returns the `calculation_error` record with
`rtsi=0`, `confidence=0`, the error description, and the valid-point
count. -/
theorem C4_calculation_error (lr : Linregress) (rs : List String) (e : String)
    (h5 : 5 ≤ (encodeScores RATING_SCORE_MAP rs).length)
    (herr : lr (encodeScores RATING_SCORE_MAP rs) = .error e) :
    (calculate_rating_trend_strength_index lr (some rs)).trend = "calculation_error" ∧
    (calculate_rating_trend_strength_index lr (some rs)).rtsi = 0 ∧
    (calculate_rating_trend_strength_index lr (some rs)).confidence = 0 ∧
    (calculate_rating_trend_strength_index lr (some rs)).error = some e ∧
    (calculate_rating_trend_strength_index lr (some rs)).data_points =
      (encodeScores RATING_SCORE_MAP rs).length := by
  rw [calculate_error lr rs e h5 herr]
  exact ⟨rfl, rfl, rfl, rfl, rfl⟩

/-- Witness for C4: the worked example fed to an always-raising
regression routine. -/
theorem C4_witness :
    (calculate_rating_trend_strength_index lrFail (some demoRatings)).trend =
      "calculation_error" ∧
    (calculate_rating_trend_strength_index lrFail (some demoRatings)).error =
      some "LinAlgError" :=
  ⟨(C4_calculation_error lrFail demoRatings "LinAlgError"
      (by rw [demo_scores]; norm_num) rfl).1,
   (C4_calculation_error lrFail demoRatings "LinAlgError"
      (by rw [demo_scores]; norm_num) rfl).2.2.2.1⟩

end RTSI

namespace RTSI

/-- C3: `classify_rtsi_by_value` is a total function on ℚ realizing the
descending closed-open brackets `[75,∞) strong_bull, [60,75)
moderate_bull, [50,60) weak_bull, [40,50) neutral, [30,40) weak_bear,
[20,30) moderate_bear, (-∞,20) strong_bear`; in particular inputs below
0 give `strong_bear` and inputs above 100 give `strong_bull`. -/
theorem C3_classification_brackets (x : ℚ) :
    (75 ≤ x → classify_rtsi_by_value x = "strong_bull") ∧
    (60 ≤ x → x < 75 → classify_rtsi_by_value x = "moderate_bull") ∧
    (50 ≤ x → x < 60 → classify_rtsi_by_value x = "weak_bull") ∧
    (40 ≤ x → x < 50 → classify_rtsi_by_value x = "neutral") ∧
    (30 ≤ x → x < 40 → classify_rtsi_by_value x = "weak_bear") ∧
    (20 ≤ x → x < 30 → classify_rtsi_by_value x = "moderate_bear") ∧
    (x < 20 → classify_rtsi_by_value x = "strong_bear") ∧
    (x < 0 → classify_rtsi_by_value x = "strong_bear") ∧
    (100 < x → classify_rtsi_by_value x = "strong_bull") := by
  unfold classify_rtsi_by_value
  refine ⟨?_, ?_, ?_, ?_, ?_, ?_, ?_, ?_, ?_⟩ <;> intros <;>
    split_ifs <;> first | rfl | (exfalso; linarith)

/-- Witness for C3: a bracket value, a negative value and an
out-of-range value. -/
theorem C3_witness :
    classify_rtsi_by_value 80 = "strong_bull" ∧
    classify_rtsi_by_value (-5) = "strong_bear" ∧
    classify_rtsi_by_value 101 = "strong_bull" :=
  ⟨(C3_classification_brackets 80).1 (by norm_num),
   (C3_classification_brackets (-5)).2.2.2.2.2.2.2.1 (by norm_num),
   (C3_classification_brackets 101).2.2.2.2.2.2.2.2 (by norm_num)⟩

/-- C7: on a successful scoring of at least 5 valid points, the result
satisfies `rtsi ∈ [0,100]`, `confidence ∈ [0,1]`, `r_squared ∈ [0,1]`.
The hypotheses `|r_value| ≤ 1` and `0 ≤ p_value` are the mathematical
guarantees of the external least-squares routine (Pearson correlation
and a probability). -/
theorem C7_result_bounds (lr : Linregress) (rs : List String) (res : LinregressResult)
    (h5 : 5 ≤ (encodeScores RATING_SCORE_MAP rs).length)
    (hok : lr (encodeScores RATING_SCORE_MAP rs) = .ok res)
    (hr : |res.r_value| ≤ 1) (hp : 0 ≤ res.p_value) :
    (0 ≤ (calculate_rating_trend_strength_index lr (some rs)).rtsi ∧
      (calculate_rating_trend_strength_index lr (some rs)).rtsi ≤ 100) ∧
    (0 ≤ (calculate_rating_trend_strength_index lr (some rs)).confidence ∧
      (calculate_rating_trend_strength_index lr (some rs)).confidence ≤ 1) ∧
    (∃ q, (calculate_rating_trend_strength_index lr (some rs)).r_squared = some q ∧
      0 ≤ q ∧ q ≤ 1) := by
  rw [calculate_ok lr rs res h5 hok]
  dsimp only
  have habs := abs_le.mp hr
  have hc0 : 0 ≤ res.r_value ^ 2 := sq_nonneg _
  have hc1 : res.r_value ^ 2 ≤ 1 := by nlinarith [habs.1, habs.2]
  have hs0 : 0 ≤ (if res.p_value < 0.05 then max 0 (1 - res.p_value) else 0) := by
    split_ifs
    · exact le_max_left 0 _
    · exact le_refl 0
  have hs1 : (if res.p_value < 0.05 then max 0 (1 - res.p_value) else 0) ≤ 1 := by
    split_ifs
    · exact max_le (by norm_num) (by linarith)
    · norm_num
  have ha0 : 0 ≤ min (|res.slope| * (encodeScores RATING_SCORE_MAP rs).length / 7) 1 := by
    apply le_min _ zero_le_one
    positivity
  have ha1 : min (|res.slope| * (encodeScores RATING_SCORE_MAP rs).length / 7) 1 ≤ 1 :=
    min_le_right _ _
  refine ⟨⟨?_, ?_⟩, ⟨?_, ?_⟩, ⟨roundTo 3 (res.r_value ^ 2), rfl, ?_, ?_⟩⟩
  · exact_mod_cast le_roundTo (z := 0) 2 (by push_cast; nlinarith)
  · exact_mod_cast roundTo_le (z := 100) 2 (by push_cast; nlinarith)
  · exact_mod_cast le_roundTo (z := 0) 3 (by push_cast; nlinarith)
  · exact_mod_cast roundTo_le (z := 1) 3 (by push_cast; nlinarith)
  · exact_mod_cast le_roundTo (z := 0) 3 (by push_cast; nlinarith)
  · exact_mod_cast roundTo_le (z := 1) 3 (by push_cast; nlinarith)

/-- Witness for C7: bounds hold on the worked example. -/
theorem C7_witness :
    (0 ≤ (calculate_rating_trend_strength_index lrDemo (some demoRatings)).rtsi ∧
      (calculate_rating_trend_strength_index lrDemo (some demoRatings)).rtsi ≤ 100) ∧
    (0 ≤ (calculate_rating_trend_strength_index lrDemo (some demoRatings)).confidence ∧
      (calculate_rating_trend_strength_index lrDemo (some demoRatings)).confidence ≤ 1) ∧
    (∃ q, (calculate_rating_trend_strength_index lrDemo (some demoRatings)).r_squared =
      some q ∧ 0 ≤ q ∧ q ≤ 1) :=
  C7_result_bounds lrDemo demoRatings lrDemoRes (by rw [demo_scores]; norm_num) rfl
    (by norm_num [lrDemoRes]) (by norm_num [lrDemoRes])

/-- C10: rescoring an identical sequence returns an identical result
record; the wrapper state (in particular the invocation counter, the
only field the call mutates) does not affect the output. -/
theorem C10_deterministic (lr : Linregress) (c : RTSICalculator)
    (input : Option (List String)) :
    ((c.calculate lr input).1.calculate lr input).2 = (c.calculate lr input).2 ∧
    (∀ c2 : RTSICalculator, (c2.calculate lr input).2 = (c.calculate lr input).2) ∧
    (c.calculate lr input).1 =
      { c with calculation_count := c.calculation_count + 1 } :=
  ⟨rfl, fun _ => rfl, rfl⟩

end RTSI

namespace RTSI

/-! ## Ranking lemmas -/

instance : IsTotal RankEntry rankGE := ⟨fun a b => le_total b.rtsi a.rtsi⟩

instance : IsTrans RankEntry rankGE := ⟨fun _ _ _ hab hbc => le_trans hbc hab⟩

/-- Ordered insertion under `rankGE` preserves the sublist of entries
with a fixed `rtsi` value, inserting the new entry in front when its
`rtsi` matches: the stability kernel. -/
theorem filter_orderedInsert (v : ℚ) (x : RankEntry) (l : List RankEntry) :
    (List.orderedInsert rankGE x l).filter (fun e => e.rtsi = v) =
      if x.rtsi = v then x :: l.filter (fun e => e.rtsi = v)
      else l.filter (fun e => e.rtsi = v) := by
  induction l with
  | nil =>
    simp only [List.orderedInsert, List.filter_cons, List.filter_nil, decide_eq_true_eq]
  | cons y l ih =>
    by_cases h1 : rankGE x y
    · simp only [List.orderedInsert]
      rw [if_pos h1]
      simp only [List.filter_cons, decide_eq_true_eq]
    · simp only [List.orderedInsert]
      rw [if_neg h1]
      have hlt : x.rtsi < y.rtsi := by simpa [rankGE] using h1
      simp only [List.filter_cons, ih, decide_eq_true_eq]
      by_cases hx : x.rtsi = v <;> by_cases hy : y.rtsi = v <;> simp_all

/-- Stability of the sort used by `get_rtsi_ranking`: for every key
value, entries with that `rtsi` appear in the sorted list in their
original relative order. -/
theorem filter_insertionSort_rankGE (v : ℚ) (l : List RankEntry) :
    (List.insertionSort rankGE l).filter (fun e => e.rtsi = v) =
      l.filter (fun e => e.rtsi = v) := by
  induction l with
  | nil => rfl
  | cons x l ih =>
    simp only [List.insertionSort, filter_orderedInsert, ih, List.filter_cons]
    split_ifs with h <;> simp_all

/-- Every entry surviving the validity filter has `rtsi > 0`. -/
theorem mem_filterValid_pos {rtsi_results : List (String × RTSIRecord)}
    {tf : Option String} {e : RankEntry} (he : e ∈ filterValid rtsi_results tf) :
    0 < e.rtsi := by
  simp only [filterValid, List.mem_filterMap] at he
  obtain ⟨p, _, hcond⟩ := he
  split_ifs at hcond with h1 h2
  cases hcond
  exact h1

end RTSI

namespace RTSI

/-- C6: with no trend filter, the ranking keeps exactly entries with
`rtsi > 0`, is sorted non-increasingly by `rtsi` with ties in original
iteration order (the sort is stable), is truncated to at most `top_n`
entries, and consists of (identifier, name, rtsi, trend) tuples. -/
theorem C6_ranking (rtsi_results : List (String × RTSIRecord)) (top_n : ℕ) :
    (∀ x ∈ get_rtsi_ranking rtsi_results top_n none, 0 < x.2.2.1) ∧
    (get_rtsi_ranking rtsi_results top_n none).Pairwise
      (fun a b => b.2.2.1 ≤ a.2.2.1) ∧
    (get_rtsi_ranking rtsi_results top_n none).length ≤ top_n ∧
    (∀ v : ℚ,
      (List.insertionSort rankGE (filterValid rtsi_results none)).filter
          (fun e => e.rtsi = v) =
        (filterValid rtsi_results none).filter (fun e => e.rtsi = v)) ∧
    get_rtsi_ranking rtsi_results top_n none =
      ((List.insertionSort rankGE (filterValid rtsi_results none)).take top_n).map
        (fun e => (e.code, e.name, e.rtsi, e.trend)) := by
  by_cases h0 : rtsi_results.length = 0
  · rw [List.length_eq_zero] at h0
    subst h0
    simp [get_rtsi_ranking, filterValid, filter_insertionSort_rankGE]
  · have hro : get_rtsi_ranking rtsi_results top_n none =
        ((List.insertionSort rankGE (filterValid rtsi_results none)).take top_n).map
          (fun e => (e.code, e.name, e.rtsi, e.trend)) := by
      simp only [get_rtsi_ranking, if_neg h0]
    refine ⟨?_, ?_, ?_, fun v => filter_insertionSort_rankGE v _, hro⟩
    · intro x hx
      rw [hro, List.mem_map] at hx
      obtain ⟨e, he, rfl⟩ := hx
      have he2 : e ∈ List.insertionSort rankGE (filterValid rtsi_results none) :=
        (List.take_sublist top_n _).subset he
      exact mem_filterValid_pos ((List.mem_insertionSort rankGE).mp he2)
    · rw [hro]
      refine List.pairwise_map.mpr ?_
      have hs : (List.insertionSort rankGE (filterValid rtsi_results none)).Pairwise rankGE :=
        List.sorted_insertionSort rankGE _
      exact (hs.sublist (List.take_sublist top_n _)).imp (fun h => h)
    · rw [hro, List.length_map, List.length_take]
      exact min_le_left _ _

/-- Witness for C6: a one-record result set ranks its single positive
entry. -/
theorem C6_witness : (0 : ℚ) <
    ((("000001", "DemoA", (50 : ℚ), "weak_bull")) : String × String × ℚ × String).2.2.1 :=
  (C6_ranking [("000001", demoRecord)] 10).1 ("000001", "DemoA", 50, "weak_bull")
    (by
      simp [get_rtsi_ranking, filterValid, demoRecord, matchesTrendFilter,
        List.insertionSort, List.orderedInsert])

end RTSI

namespace RTSI

/-! ## Batch engine lemmas -/

/-- Folding the per-row step over rows with pairwise-distinct keys, all
fresh relative to the accumulator, adds exactly one entry per row. -/
theorem foldl_batchStep_length (lr : Linregress) (t : StockTable) :
    ∀ (l : List (ℕ × List String)) (acc : List (String × RTSIRecord)),
      (l.map (rowKey t)).Nodup →
      (∀ k ∈ l.map (rowKey t), k ∉ acc.map Prod.fst) →
      (l.foldl (batchStep lr t) acc).length = acc.length + l.length := by
  intro l
  induction l with
  | nil => simp
  | cons x l ih =>
    intro acc hnd hdisj
    have hx : rowKey t x ∉ acc.map Prod.fst := hdisj _ (by simp)
    have hstep : batchStep lr t acc x = acc ++ [(rowKey t x, rowRecord lr t x)] := by
      simp [batchStep, dictInsert, hx]
    rw [List.foldl_cons, hstep]
    have hnd2 : (l.map (rowKey t)).Nodup := by
      rw [List.map_cons, List.nodup_cons] at hnd
      exact hnd.2
    have hhead : rowKey t x ∉ l.map (rowKey t) := by
      rw [List.map_cons, List.nodup_cons] at hnd
      exact hnd.1
    have hdisj2 : ∀ k ∈ l.map (rowKey t),
        k ∉ (acc ++ [(rowKey t x, rowRecord lr t x)]).map Prod.fst := by
      intro k hk
      simp only [List.map_append, List.mem_append]
      rintro (hka | hkx)
      · exact hdisj k (by simp [hk]) hka
      · simp at hkx
        exact hhead (hkx ▸ hk)
    rw [ih _ hnd2 hdisj2]
    simp
    omega

/-- C5 counterexample: a 2-row table whose rows share a stock code (and
which has a time-key column) produces a batch result set with a single
entry — the second row overwrites the first, so a row is dropped. -/
theorem C5_counterexample :
    dupCodeTable.rows.length = 2 ∧
    (dateColumnsOf dupCodeTable).length ≠ 0 ∧
    (batch_calculate_rtsi lrDemo dupCodeTable).length = 1 := by
  refine ⟨rfl, by decide, by decide⟩

/-- C5 amended: when the table has a time-key column and the row keys
(stock codes, with positional defaults) are pairwise distinct, the batch
result set has exactly one entry per input row. -/
theorem C5_no_drop_distinct (lr : Linregress) (t : StockTable)
    (hdc : (dateColumnsOf t).length ≠ 0)
    (hkeys : (t.rows.enum.map (rowKey t)).Nodup) :
    (batch_calculate_rtsi lr t).length = t.rows.length := by
  by_cases hr : t.rows.length = 0
  · simp [batch_calculate_rtsi, hr]
  · simp only [batch_calculate_rtsi, if_neg hr, if_neg hdc]
    rw [foldl_batchStep_length lr t _ [] hkeys (by simp)]
    simp

/-- Witness for the amended C5: a 2-row table with distinct codes yields
2 entries. -/
theorem C5_witness : (batch_calculate_rtsi lrDemo distinctCodeTable).length =
    distinctCodeTable.rows.length :=
  C5_no_drop_distinct lrDemo distinctCodeTable (by decide) (by decide)

end RTSI

namespace RTSI

/-- C9 counterexample: the code selects time-key columns by the literal
string test `startswith('202')`, not by "begins with a 4-digit year":
the 2030-dated column `"20300101"` begins with a 4-digit year yet is not
selected (and its table yields an empty batch result), while
`"202X0601"` does not begin with a 4-digit year yet is selected. -/
theorem C9_counterexample :
    beginsWithFourDigitYear "20300101" = true ∧
    dateColumnsOf year2030Table = [] ∧
    batch_calculate_rtsi lrDemo year2030Table = [] ∧
    beginsWithFourDigitYear "202X0601" = false ∧
    dateColumnsOf { columns := ["202X0601"], rows := [["大多"]] } = ["202X0601"] := by
  refine ⟨by decide, by decide, by decide, by decide, by decide⟩

/-- C9 amended: the engine selects exactly the columns whose name starts
with the literal string `"202"`, processes them in ascending
lexicographic (chronological for fixed-width dates) order, and returns
an empty result set — not a fault — when no such column exists. -/
theorem C9_date_column_selection (lr : Linregress) (t : StockTable) :
    dateColumnsOf t =
      List.insertionSort (· ≤ ·) (t.columns.filter (fun c => strStartsWith c "202")) ∧
    (dateColumnsOf t).Sorted (· ≤ ·) ∧
    (∀ c, c ∈ dateColumnsOf t ↔ c ∈ t.columns ∧ strStartsWith c "202" = true) ∧
    ((dateColumnsOf t).length = 0 → batch_calculate_rtsi lr t = []) := by
  refine ⟨rfl, List.sorted_insertionSort _ _, ?_, ?_⟩
  · intro c
    simp [dateColumnsOf, List.mem_insertionSort, List.mem_filter]
  · intro h
    simp only [batch_calculate_rtsi]
    split_ifs <;> simp_all

/-- Witness for the amended C9: a table without time-key columns gives
an empty result set. -/
theorem C9_witness : batch_calculate_rtsi lrDemo noDateTable = [] :=
  (C9_date_column_selection lrDemo noDateTable).2.2.2 (by decide)

/-- C8: the instance configuration of `RTSICalculator` is dead state.
`calculate` ignores `min_data_points` (a calculator constructed with
threshold 10 still fully scores a 7-point sequence) and ignores
`rating_map` (a calculator constructed with a map validating the five
symbols `"X"` still reports 0 valid points via the global map). -/
theorem C8_configuration_ignored :
    (RTSICalculator.make none 10).min_data_points = 10 ∧
    ((RTSICalculator.make none 10).calculate lrDemo (some demoRatings)).2.trend =
      "strong_bull" ∧
    (encodeScores customMap customRatings).length = 5 ∧
    ((RTSICalculator.make (some customMap) 5).calculate lrDemo
        (some customRatings)).2 = get_insufficient_data_result 0 := by
  refine ⟨rfl, ?_, by decide, ?_⟩
  · show (calculate_rating_trend_strength_index lrDemo (some demoRatings)).trend =
      "strong_bull"
    rw [calculate_ok lrDemo demoRatings lrDemoRes (by rw [demo_scores]; norm_num) rfl]
    norm_num [lrDemoRes, determine_trend_direction]
  · show calculate_rating_trend_strength_index lrDemo (some customRatings) =
      get_insufficient_data_result 0
    have h := calculate_insufficient lrDemo (some customRatings)
      (by simp [validCount, encodeScores, RATING_SCORE_MAP, customRatings])
    rwa [show validCount (some customRatings) = 0 by
      simp [validCount, encodeScores, RATING_SCORE_MAP, customRatings]] at h

end RTSI
